import Mathlib

/-!
# DeepTrustGUI — verification of the HTTP-client and UI-state layer

Shallow embedding of the DeepTrustGUI browser client (TypeScript/React) in
Lean 4.  The embedding models:

* JavaScript runtime values (`JsValue`) as far as the client inspects them:
  `undefined`, `null`, booleans, numbers, strings, arrays and plain objects.
  Numbers are modelled as integers plus the non-finite values `NaN`,
  `Infinity` and `-Infinity`; no claim in this development depends on
  fractional arithmetic (numbers are only stored, compared for finiteness,
  parsed from strings with `parseInt`, and stringified).
* the axios request layer (`api/baseApi.ts`, `imageDetection.ts`,
  `audioDetection.ts`, `videoDetection.ts`, `apiLogHandling.ts`) as pure
  request-description builders;
* the `Scanner` component's state and event handlers as a labelled
  transition system;
* the `Upload` component's `scanBlob`, the `MainApp` page's `fetchLogs`
  and `handleDeleteItem`, and the `ScanResult` page's response parsing.

Handlers that in the browser run asynchronously are modelled as atomic
steps: the model assumes no other UI event fires between an HTTP request
and the handling of its response, and that a `MediaRecorder` whose tracks
have been stopped by cleanup code emits no further callbacks.
-/

/-! ## JavaScript string primitives -/

/-- `needle` occurs at the head of `hay` (character-exact). -/
def listStartsWith : List Char → List Char → Bool
  | [], _ => true
  | _ :: _, [] => false
  | a :: as, b :: bs => a == b && listStartsWith as bs

/-- `needle` occurs somewhere in `hay`.  The empty needle always occurs,
matching JavaScript `String.prototype.includes`. -/
def listOccurs (needle : List Char) : List Char → Bool
  | [] => needle.isEmpty
  | c :: rest => listStartsWith needle (c :: rest) || listOccurs needle rest

/-- JavaScript `hay.includes needle`. -/
def strIncludes (hay needle : String) : Bool :=
  listOccurs needle.data hay.data

/-- JavaScript `s.toLowerCase()` (ASCII-adequate). -/
def jsToLowerCase (s : String) : String :=
  String.mk (s.data.map Char.toLower)

/-- JavaScript `s.trim()` (ASCII-adequate whitespace set). -/
def jsTrim (s : String) : String :=
  String.mk (((s.data.dropWhile Char.isWhitespace).reverse.dropWhile Char.isWhitespace).reverse)

/-! ## JavaScript values -/

/-- A JavaScript number: an integer value or one of the non-finite values. -/
inductive JsNum where
  | finite (v : Int)
  | nan
  | inf
  | neginf
deriving DecidableEq, Repr

/-- A JavaScript runtime value as far as the client inspects it. -/
inductive JsValue where
  | jsundefined
  | null
  | bool (b : Bool)
  | num (n : JsNum)
  | str (s : String)
  | arr (elems : List JsValue)
  | obj (fields : List (String × JsValue))
deriving Repr

/-- First-match property lookup on an object's field list (JS objects have
unique keys, so first match is the only match). -/
def lookupField : List (String × JsValue) → String → JsValue
  | [], _ => .jsundefined
  | (k, v) :: rest, key => if k = key then v else lookupField rest key

/-- JavaScript property access `v[key]`: `undefined` on every non-object. -/
def getField (v : JsValue) (key : String) : JsValue :=
  match v with
  | .obj fields => lookupField fields key
  | _ => .jsundefined

/-- JavaScript nullish coalescing `a ?? b`. -/
def coalesce (a b : JsValue) : JsValue :=
  match a with
  | .jsundefined => b
  | .null => b
  | v => v

/-- JavaScript `Number.parseInt(s, 10)`: trim, optional sign, then the
longest leading run of decimal digits; `NaN` when that run is empty. -/
def jsParseInt (s : String) : JsNum :=
  let cs := (jsTrim s).data
  let signed : Bool × List Char :=
    match cs with
    | '-' :: rest => (true, rest)
    | '+' :: rest => (false, rest)
    | rest => (false, rest)
  let digits := signed.2.takeWhile Char.isDigit
  if digits.isEmpty then .nan
  else
    let v : Int := Int.ofNat (digits.foldl (fun a c => a * 10 + (c.toNat - 48)) 0)
    .finite (if signed.1 then -v else v)

/-! ## The axios layer (`api/baseApi.ts` and the detection/log modules) -/

/-- The environment of `import.meta.env`: a partial map from variable
names to string values. -/
def Env : Type := String → Option String

/-- An uploaded blob, identified abstractly. -/
structure Blob where
  val : Nat
deriving DecidableEq, Repr

/-- One `FormData.append(key, blob, filename)` entry. -/
structure FormEntry where
  key : String
  blob : Blob
  filename : String
deriving DecidableEq, Repr

inductive HttpMethod where
  | get
  | post
  | delete
deriving DecidableEq, Repr

/-- The observable description of one HTTP request issued through axios:
the instance's `baseURL`, the relative path, the multipart form entries,
the query parameters, and the per-request options the client sets. -/
structure Request where
  method : HttpMethod
  baseURL : Option String
  path : String
  formData : List FormEntry
  params : List (String × JsNum)
  contentTypeHeader : Option String
  timeoutMs : Option Nat
deriving DecidableEq, Repr

/-- `export const BASE_URL = import.meta.env.VITE_API_BASE_URL;` -/
def BASE_URL (env : Env) : Option String :=
  env "VITE_API_BASE_URL"

structure AxiosInstance where
  baseURL : Option String

/-- `axios.create({ baseURL: BASE_URL })` — the single shared instance. -/
def api_instance (env : Env) : AxiosInstance :=
  { baseURL := BASE_URL env }

namespace imageDetection

def endpoint : String := "analyze_image"

/-- `imageDetection.postImage(imageBlob, filename = "image.png")`. -/
def postImage (env : Env) (imageBlob : Blob) (filename : String) : Request :=
  { method := .post
    baseURL := (api_instance env).baseURL
    path := endpoint
    formData := [{ key := "file", blob := imageBlob, filename := filename }]
    params := []
    contentTypeHeader := some "multipart/form-data"
    timeoutMs := some 60000 }

/-- The source default for the `filename` parameter. -/
def defaultFilename : String := "image.png"

end imageDetection

namespace audioDetection

def endpoint : String := "analyze_audio"

/-- `audioDetection.postAudio(audioBlob, filename = "recording.webm")`. -/
def postAudio (env : Env) (audioBlob : Blob) (filename : String) : Request :=
  { method := .post
    baseURL := (api_instance env).baseURL
    path := endpoint
    formData := [{ key := "file", blob := audioBlob, filename := filename }]
    params := []
    contentTypeHeader := some "multipart/form-data"
    timeoutMs := some 60000 }

/-- The source default for the `filename` parameter. -/
def defaultFilename : String := "recording.webm"

end audioDetection

namespace videoDetection

def endpoint : String := "analyze_video"

/-- `videoDetection.postVideo(videoBlob, filename = "recording.webm")`. -/
def postVideo (env : Env) (videoBlob : Blob) (filename : String) : Request :=
  { method := .post
    baseURL := (api_instance env).baseURL
    path := endpoint
    formData := [{ key := "file", blob := videoBlob, filename := filename }]
    params := []
    contentTypeHeader := some "multipart/form-data"
    timeoutMs := some 60000 }

/-- The source default for the `filename` parameter. -/
def defaultFilename : String := "recording.webm"

end videoDetection

namespace logApi

def endpoint : String := "logs"

/-- `logApi.getAllLogs()`. -/
def getAllLogs (env : Env) : Request :=
  { method := .get
    baseURL := (api_instance env).baseURL
    path := endpoint ++ "/all"
    formData := []
    params := []
    contentTypeHeader := none
    timeoutMs := none }

/-- `logApi.getLogById(logId)` (`logId` has TypeScript type `number`). -/
def getLogById (env : Env) (logId : JsNum) : Request :=
  { method := .get
    baseURL := (api_instance env).baseURL
    path := endpoint ++ "/get_by_id"
    formData := []
    params := [("id", logId)]
    contentTypeHeader := none
    timeoutMs := none }

/-- `logApi.deleteLogById(logId)`. -/
def deleteLogById (env : Env) (logId : JsNum) : Request :=
  { method := .delete
    baseURL := (api_instance env).baseURL
    path := endpoint ++ "/delete_by_id"
    formData := []
    params := [("id", logId)]
    contentTypeHeader := none
    timeoutMs := none }

end logApi

/-- A path names another origin only if it carries a scheme separator. -/
def hasScheme (p : String) : Bool :=
  strIncludes p "://"

/-- C1: every analyze call sends the media blob as a multipart form upload
under the form field named "file": `postImage` posts to `analyze_image`,
`postAudio` to `analyze_audio`, `postVideo` to `analyze_video`, each
appending the blob to the `FormData` under the key "file" and never under
"image", "audio", or "video". -/
theorem analyze_uploads_use_file_field (env : Env) (b : Blob) (fi fa fv : String) :
    (imageDetection.postImage env b fi).formData = [⟨"file", b, fi⟩]
    ∧ (audioDetection.postAudio env b fa).formData = [⟨"file", b, fa⟩]
    ∧ (videoDetection.postVideo env b fv).formData = [⟨"file", b, fv⟩]
    ∧ (imageDetection.postImage env b fi).path = "analyze_image"
    ∧ (audioDetection.postAudio env b fa).path = "analyze_audio"
    ∧ (videoDetection.postVideo env b fv).path = "analyze_video"
    ∧ (imageDetection.postImage env b fi).method = .post
    ∧ (audioDetection.postAudio env b fa).method = .post
    ∧ (videoDetection.postVideo env b fv).method = .post
    ∧ ((imageDetection.postImage env b fi).formData.map FormEntry.key) = ["file"]
    ∧ ((audioDetection.postAudio env b fa).formData.map FormEntry.key) = ["file"]
    ∧ ((videoDetection.postVideo env b fv).formData.map FormEntry.key) = ["file"]
    ∧ ((imageDetection.postImage env b fi).formData.map FormEntry.key).contains "image" = false
    ∧ ((audioDetection.postAudio env b fa).formData.map FormEntry.key).contains "audio" = false
    ∧ ((videoDetection.postVideo env b fv).formData.map FormEntry.key).contains "video" = false :=
  ⟨rfl, rfl, rfl, rfl, rfl, rfl, rfl, rfl, rfl, rfl, rfl, rfl, rfl, rfl, rfl⟩

/-- C4: the log-store client calls exactly the three log endpoints with the
stated methods and query parameter: `getAllLogs` issues `GET logs/all` with
no parameters, `getLogById` issues `GET logs/get_by_id` with query
parameter `id` set to the given numeric log id, and `deleteLogById` issues
`DELETE logs/delete_by_id` with query parameter `id` set to the given
numeric log id. -/
theorem log_endpoints_shape (env : Env) (n : JsNum) :
    (logApi.getAllLogs env).method = .get
    ∧ (logApi.getAllLogs env).path = "logs/all"
    ∧ (logApi.getAllLogs env).params = []
    ∧ (logApi.getAllLogs env).formData = []
    ∧ (logApi.getLogById env n).method = .get
    ∧ (logApi.getLogById env n).path = "logs/get_by_id"
    ∧ (logApi.getLogById env n).params = [("id", n)]
    ∧ (logApi.deleteLogById env n).method = .delete
    ∧ (logApi.deleteLogById env n).path = "logs/delete_by_id"
    ∧ (logApi.deleteLogById env n).params = [("id", n)] :=
  ⟨rfl, rfl, rfl, rfl, rfl, rfl, rfl, rfl, rfl, rfl⟩

/-- C8: the backend origin is configured through the single base-URL
setting `VITE_API_BASE_URL`: every backend request (analyze and log calls)
is issued through the one shared axios instance whose `baseURL` is that
environment value, and every request path is relative (no request supplies
another origin). -/
theorem single_base_url_setting (env : Env) (b : Blob) (f : String) (n : JsNum) :
    (api_instance env).baseURL = env "VITE_API_BASE_URL"
    ∧ (imageDetection.postImage env b f).baseURL = env "VITE_API_BASE_URL"
    ∧ (audioDetection.postAudio env b f).baseURL = env "VITE_API_BASE_URL"
    ∧ (videoDetection.postVideo env b f).baseURL = env "VITE_API_BASE_URL"
    ∧ (logApi.getAllLogs env).baseURL = env "VITE_API_BASE_URL"
    ∧ (logApi.getLogById env n).baseURL = env "VITE_API_BASE_URL"
    ∧ (logApi.deleteLogById env n).baseURL = env "VITE_API_BASE_URL"
    ∧ hasScheme (imageDetection.postImage env b f).path = false
    ∧ hasScheme (audioDetection.postAudio env b f).path = false
    ∧ hasScheme (videoDetection.postVideo env b f).path = false
    ∧ hasScheme (logApi.getAllLogs env).path = false
    ∧ hasScheme (logApi.getLogById env n).path = false
    ∧ hasScheme (logApi.deleteLogById env n).path = false :=
  ⟨rfl, rfl, rfl, rfl, rfl, rfl, rfl, rfl, rfl, rfl, rfl, rfl, rfl⟩

/-! ## JavaScript stringification and coercions -/

/-- JavaScript number-to-string (on the integer-valued number model). -/
def numToString : JsNum → String
  | .finite v => toString v
  | .nan => "NaN"
  | .inf => "Infinity"
  | .neginf => "-Infinity"

mutual

/-- JavaScript `String(v)`. -/
def jsToString : JsValue → String
  | .jsundefined => "undefined"
  | .null => "null"
  | .bool true => "true"
  | .bool false => "false"
  | .num n => numToString n
  | .str s => s
  | .arr l => jsArrToString l
  | .obj _ => "[object Object]"

/-- Array stringification: comma-join of the elements. -/
def jsArrToString : List JsValue → String
  | [] => ""
  | [x] => jsElemToString x
  | x :: y :: rest => jsElemToString x ++ "," ++ jsArrToString (y :: rest)

/-- Inside `Array.prototype.join`, `null` and `undefined` print as "". -/
def jsElemToString : JsValue → String
  | .jsundefined => ""
  | .null => ""
  | v => jsToString v

end

/-- JavaScript `typeof v`. -/
def jsTypeof (v : JsValue) : String :=
  match v with
  | .jsundefined => "undefined"
  | .null => "object"
  | .bool _ => "boolean"
  | .num _ => "number"
  | .str _ => "string"
  | .arr _ => "object"
  | .obj _ => "object"

/-- The boolean payload of a value statically known to be a boolean
(`false` elsewhere; only ever applied under a `typeof` guard). -/
def asBool (v : JsValue) : Bool :=
  match v with
  | .bool b => b
  | _ => false

/-- The string payload of a value statically known to be a string. -/
def asStr (v : JsValue) : String :=
  match v with
  | .str s => s
  | _ => ""

/-- `Number.isFinite` on a number value. -/
def jsIsFinite : JsNum → Bool
  | .finite _ => true
  | _ => false

/-- `Array.isArray`. -/
def jsIsArray (v : JsValue) : Bool :=
  match v with
  | .arr _ => true
  | _ => false

/-! ## `MainApp.fetchLogs` — parsing the `logs/all` response (C3, C7) -/

/-- One entry of the client-held history list
(`type HistoryItem = { id: number; is_deepfake: boolean; date: string; hour: string }`). -/
structure HistoryItem where
  id : Int
  is_deepfake : Bool
  date : String
  hour : String
deriving DecidableEq, Repr

/-- The id extraction of `fetchLogs`:
`typeof idValue === "number" ? idValue : typeof idValue === "string" ? Number.parseInt(idValue, 10) : NaN`.
(`(log ?? {}).id` behaves as `getField` on every non-object.) -/
def logIdNum (log : JsValue) : JsNum :=
  match getField log "id" with
  | .num n => n
  | .str s => jsParseInt s
  | _ => .nan

/-- The id, provided `Number.isFinite` holds of it. -/
def finiteLogId (log : JsValue) : Option Int :=
  match logIdNum log with
  | .finite v => some v
  | _ => none

/-- The deepfake marking of `fetchLogs`:
`(typeof obj.is_deepfake === "boolean" && obj.is_deepfake) ||
 (typeof obj.isDeepFake === "boolean" && obj.isDeepFake) ||
 (typeof obj.classification === "string" && obj.classification.toLowerCase().includes("deepfake"))`. -/
def markDeepfake (log : JsValue) : Bool :=
  ((jsTypeof (getField log "is_deepfake") == "boolean")
      && asBool (getField log "is_deepfake"))
  || ((jsTypeof (getField log "isDeepFake") == "boolean")
      && asBool (getField log "isDeepFake"))
  || ((jsTypeof (getField log "classification") == "string")
      && strIncludes (jsToLowerCase (asStr (getField log "classification"))) "deepfake")

/-- The element mapper of `fetchLogs`: `null` when the id is not a finite
number, otherwise the `HistoryItem` built from the response element. -/
def parseLogEntry (log : JsValue) : Option HistoryItem :=
  match finiteLogId log with
  | none => none
  | some id =>
    some { id := id
           is_deepfake := markDeepfake log
           date := jsToString (coalesce (getField log "date") (.str ""))
           hour := jsToString (coalesce (getField log "hour") (.str "")) }

/-- `fetchLogs` response handling:
`Array.isArray(data) ? data.map(...).filter((x) => x !== null) : []`. -/
def fetchLogsParse (data : JsValue) : List HistoryItem :=
  match data with
  | .arr l => (l.map parseLogEntry).reduceOption
  | _ => []

/-! ## `ScanResult` page — tolerant field reading (C3) -/

/-- `toBool` of the `ScanResult` page.  Note that for numbers the source
returns `value !== 0`, which is `true` for `NaN` and the infinities. -/
def toBool (value : JsValue) : Bool :=
  match value with
  | .bool b => b
  | .num (.finite v) => v != 0
  | .num .nan => true
  | .num .inf => true
  | .num .neginf => true
  | .str s =>
    let v := jsToLowerCase (jsTrim s)
    if v = "true" || v = "1" || v = "yes" || v = "y" then true
    else if v = "false" || v = "0" || v = "no" || v = "n" then false
    else false
  | _ => false

/-- `isDeepfakeFromClassification` of the `ScanResult` page. -/
def isDeepfakeFromClassification (value : JsValue) : Option Bool :=
  match value with
  | .str s =>
    let v := jsToLowerCase (jsTrim s)
    if v = "" then none
    else if strIncludes v "deepfake" then some true
    else if strIncludes v "bonafide" || strIncludes v "bona fide" || strIncludes v "bona-fide" then
      some false
    else none
  | _ => none

/-- The `isDeepfake` flag the `ScanResult` page computes for a loaded log:
`isDeepfakeFromClassification(log?.classification) ?? toBool(log?.isDeepFake ?? log?.is_deepfake)`. -/
def scanResultIsDeepfake (log : JsValue) : Bool :=
  match isDeepfakeFromClassification (getField log "classification") with
  | some b => b
  | none => toBool (coalesce (getField log "isDeepFake") (getField log "is_deepfake"))

/-- The score the `ScanResult` page displays:
`log?.score ?? log?.normalized_score ?? null`. -/
def scanResultScore (log : JsValue) : JsValue :=
  coalesce (getField log "score") (coalesce (getField log "normalized_score") .null)

/-! Spec-side formulations for C3. -/

/-- Case-insensitive containment, as the claim's words state it. -/
def containsCI (hay needle : String) : Bool :=
  strIncludes (jsToLowerCase hay) (jsToLowerCase needle)

/-- The value is the boolean `true`. -/
def isBoolTrue (v : JsValue) : Bool :=
  match v with
  | .bool true => true
  | _ => false

/-- The value is a string containing `needle` case-insensitively. -/
def isStrContaining (v : JsValue) (needle : String) : Bool :=
  match v with
  | .str s => containsCI s needle
  | _ => false

/-- The deepfake rule exactly as claim C3 words it: boolean field
`is_deepfake` true, or boolean field `isDeepFake` true, or string field
`classification` containing "deepfake" case-insensitively. -/
def claimedDeepfakeRule (log : JsValue) : Bool :=
  isBoolTrue (getField log "is_deepfake")
  || isBoolTrue (getField log "isDeepFake")
  || isStrContaining (getField log "classification") "deepfake"

/-- `v` is `null` or `undefined` (the triggers of `??`). -/
def isNullish (v : JsValue) : Bool :=
  match v with
  | .jsundefined => true
  | .null => true
  | _ => false

lemma typeof_boolean_and (v : JsValue) :
    ((jsTypeof v == "boolean") && asBool v) = isBoolTrue v := by
  cases v with
  | bool b => cases b <;> rfl
  | jsundefined => rfl
  | null => rfl
  | num n => rfl
  | str s => rfl
  | arr l => rfl
  | obj f => rfl

lemma typeof_string_contains (v : JsValue) :
    ((jsTypeof v == "string") && strIncludes (jsToLowerCase (asStr v)) "deepfake")
      = isStrContaining v "deepfake" := by
  cases v with
  | str s =>
    show (true && strIncludes (jsToLowerCase s) "deepfake") = containsCI s "deepfake"
    have h : jsToLowerCase "deepfake" = "deepfake" := by decide
    unfold containsCI
    rw [h, Bool.true_and]
  | bool b => rfl
  | jsundefined => rfl
  | null => rfl
  | num n => rfl
  | arr l => rfl
  | obj f => rfl

/-- C3 (amended): the history list marks a log deepfake exactly per the
boolean/classification rule, and the scan-result page reads the score from
`score` or `normalized_score`, preferring `score`; the scan-result page's
own deepfake flag follows classification first and falls back to coercing
`isDeepFake ?? is_deepfake`. -/
theorem deepfake_flag_and_score_parsing (entry log : JsValue) :
    markDeepfake entry = claimedDeepfakeRule entry
    ∧ (scanResultIsDeepfake log = true ↔
        (isDeepfakeFromClassification (getField log "classification") = some true
          ∨ (isDeepfakeFromClassification (getField log "classification") = none
              ∧ toBool (coalesce (getField log "isDeepFake") (getField log "is_deepfake")) = true)))
    ∧ (isNullish (getField log "score") = false →
        scanResultScore log = getField log "score")
    ∧ (isNullish (getField log "score") = true →
        scanResultScore log = coalesce (getField log "normalized_score") JsValue.null) := by
  refine ⟨?_, ?_, ?_, ?_⟩
  · unfold markDeepfake claimedDeepfakeRule
    rw [typeof_boolean_and, typeof_boolean_and, typeof_string_contains]
  · cases h : isDeepfakeFromClassification (getField log "classification") with
    | none => simp [scanResultIsDeepfake, h]
    | some b => cases b <;> simp [scanResultIsDeepfake, h]
  · intro h
    unfold scanResultScore
    cases hs : getField log "score" <;> simp [isNullish, hs] at h ⊢ <;> rfl
  · intro h
    unfold scanResultScore
    cases hs : getField log "score" <;> simp [isNullish, hs] at h ⊢ <;> rfl

/-- The input on which the claimed marking rule and the scan-result page
disagree: `is_deepfake` is boolean `true` but `classification` says
"bonafide". -/
def divergingLog : JsValue :=
  .obj [("is_deepfake", .bool true), ("classification", .str "bonafide")]

/-- C3 counterexample: the claimed rule marks `divergingLog` as deepfake,
but the scan-result page marks it as not deepfake — so "the client marks
it as deepfake if and only if ..." fails for the scan-result page. -/
theorem scanresult_marking_diverges :
    claimedDeepfakeRule divergingLog = true
    ∧ scanResultIsDeepfake divergingLog = false :=
  ⟨by decide, by decide⟩

/-- A log carrying both `score` and `normalized_score`. -/
def divergingScoreLog : JsValue :=
  .obj [("score", .num (.finite 87)), ("normalized_score", .num (.finite 12))]

/-- C3 witness: a log carrying a non-nullish `score` field has its score
read from `score`, and the deepfake-rule equivalence holds on it. -/
theorem deepfake_flag_and_score_witness :
    isNullish (getField divergingScoreLog "score") = false
    ∧ scanResultScore divergingScoreLog = getField divergingScoreLog "score" :=
  ⟨by decide, (deepfake_flag_and_score_parsing divergingScoreLog divergingScoreLog).2.2.1 (by decide)⟩

/-- C7: every history entry the client holds after a fetch consists of
exactly a log identifier (a finite number), a boolean deepfake flag, and
date/time strings, all taken from the bulk `logs/all` response; an element
whose id cannot be parsed to a finite number is dropped from the history
list, and a non-array response yields an empty history list. -/
theorem history_entries_from_bulk_response (data : JsValue) (l : List JsValue) (x : JsValue) :
    (jsIsArray data = false → fetchLogsParse data = [])
    ∧ fetchLogsParse (.arr l) = l.filterMap parseLogEntry
    ∧ (parseLogEntry x = none ↔ finiteLogId x = none)
    ∧ (∀ item : HistoryItem, parseLogEntry x = some item →
        finiteLogId x = some item.id
        ∧ item.is_deepfake = markDeepfake x
        ∧ item.date = jsToString (coalesce (getField x "date") (.str ""))
        ∧ item.hour = jsToString (coalesce (getField x "hour") (.str ""))) := by
  refine ⟨?_, ?_, ?_, ?_⟩
  · cases data <;> simp [jsIsArray, fetchLogsParse]
  · simp [fetchLogsParse, List.reduceOption, List.filterMap_map, Function.comp]
  · unfold parseLogEntry
    cases hf : finiteLogId x <;> simp
  · intro item h
    unfold parseLogEntry at h
    cases hf : finiteLogId x with
    | none => rw [hf] at h; exact absurd h (by simp)
    | some i =>
      rw [hf] at h
      have h2 := Option.some.inj h
      subst h2
      simp [hf]

/-- An example `logs/all` payload: one well-formed element, one element
with an unparseable id, and one null element. -/
def sampleLogsResponse : List JsValue :=
  [ .obj [("id", .str "7"), ("is_deepfake", .bool true),
          ("date", .str "2024-01-02"), ("hour", .str "10:30:00.123")],
    .obj [("id", .str "x"), ("is_deepfake", .bool true)],
    .null ]

/-- C7 witness: a non-array response yields an empty history list, and a
parsed entry carries exactly the fields of its response element. -/
theorem history_entries_witness :
    jsIsArray (JsValue.str "oops") = false
    ∧ fetchLogsParse (JsValue.str "oops") = []
    ∧ parseLogEntry (JsValue.obj [("id", JsValue.str "7")])
        = some { id := 7, is_deepfake := false, date := "", hour := "" }
    ∧ finiteLogId (JsValue.obj [("id", JsValue.str "7")])
        = some ({ id := 7, is_deepfake := false, date := "", hour := "" } : HistoryItem).id :=
  ⟨by decide,
   (history_entries_from_bulk_response (JsValue.str "oops") [] JsValue.null).1 (by decide),
   by simp [parseLogEntry, finiteLogId, logIdNum, getField, lookupField, jsParseInt, jsTrim,
            markDeepfake, jsToString, coalesce, jsTypeof, asBool, asStr, jsToLowerCase, strIncludes,
            listOccurs, listStartsWith],
   ((history_entries_from_bulk_response JsValue.null []
       (JsValue.obj [("id", JsValue.str "7")])).2.2.2
     { id := 7, is_deepfake := false, date := "", hour := "" }
     (by simp [parseLogEntry, finiteLogId, logIdNum, getField, lookupField, jsParseInt, jsTrim,
               markDeepfake, jsToString, coalesce, jsTypeof, asBool, asStr, jsToLowerCase,
               strIncludes, listOccurs, listStartsWith])).1⟩

/-! ## `toStatusFromClassification` (`Upload.tsx` / `ScreenRecorder.tsx`) (C9) -/

/-- The scan verdict the client works with. -/
inductive SStatus where
  | authentic
  | fake
deriving DecidableEq, Repr

/-- The keyword cascade of `toStatusFromClassification`, applied to the
already trimmed and lowercased string. -/
def statusOfNormalized (v : String) : Option SStatus :=
  if v = "" then none
  else if strIncludes v "bonafide" || strIncludes v "bona fide" || strIncludes v "bona-fide" then
    some .authentic
  else if strIncludes v "auth" || strIncludes v "real" || strIncludes v "genuine" then
    some .authentic
  else if strIncludes v "deepfake" || strIncludes v "fake" || strIncludes v "manip" then
    some .fake
  else none

/-- `toStatusFromClassification(value)` as defined identically in
`Upload.tsx` and `ScreenRecorder.tsx`. -/
def toStatusFromClassification (value : JsValue) : Option SStatus :=
  match value with
  | .str s => statusOfNormalized (jsToLowerCase (jsTrim s))
  | _ => none

/-- The six authentic keywords of claim C9, over the normalized string. -/
def authKeyword (v : String) : Bool :=
  strIncludes v "bonafide" || strIncludes v "bona fide" || strIncludes v "bona-fide"
  || strIncludes v "auth" || strIncludes v "real" || strIncludes v "genuine"

/-- The three fake keywords of claim C9, over the normalized string. -/
def fakeKeyword (v : String) : Bool :=
  strIncludes v "deepfake" || strIncludes v "fake" || strIncludes v "manip"

lemma statusOfNormalized_auth (v : String) (h : authKeyword v = true) :
    statusOfNormalized v = some .authentic := by
  unfold statusOfNormalized
  unfold authKeyword at h
  simp only [Bool.or_eq_true] at h
  split_ifs with h1 h2 h3 h4 <;> try rfl
  · subst h1; exact absurd h (by decide)
  · simp only [Bool.or_eq_true] at h2 h3
    tauto
  · simp only [Bool.or_eq_true] at h2 h3
    tauto

lemma statusOfNormalized_fake (v : String)
    (ha : authKeyword v = false) (hf : fakeKeyword v = true) :
    statusOfNormalized v = some .fake := by
  unfold statusOfNormalized
  unfold authKeyword at ha
  unfold fakeKeyword at hf
  simp only [Bool.or_eq_false_iff] at ha
  obtain ⟨⟨⟨⟨⟨a1, a2⟩, a3⟩, a4⟩, a5⟩, a6⟩ := ha
  split_ifs with h1 h2 h3 <;> try rfl
  · subst h1; exact absurd hf (by decide)
  · simp [a1, a2, a3] at h2
  · simp [a4, a5, a6] at h3

lemma statusOfNormalized_none (v : String)
    (ha : authKeyword v = false) (hf : fakeKeyword v = false) :
    statusOfNormalized v = none := by
  unfold statusOfNormalized
  unfold authKeyword at ha
  unfold fakeKeyword at hf
  simp only [Bool.or_eq_false_iff] at ha
  obtain ⟨⟨⟨⟨⟨a1, a2⟩, a3⟩, a4⟩, a5⟩, a6⟩ := ha
  split_ifs with h1 h2 h3 h4 <;> try rfl
  · simp [a1, a2, a3] at h2
  · simp [a4, a5, a6] at h3
  · exact absurd h4 (by simp [hf])

/-- C9: the classification-keyword mapping gives authentic keywords
precedence over fake keywords — `toStatusFromClassification` returns
"authentic" whenever the trimmed lowercased string contains one of the six
authentic keywords (even when a fake keyword is also present), returns
"fake" when no authentic keyword but a fake keyword is present, and
returns `null` for non-strings, empty/whitespace-only strings, and strings
matching no keyword. -/
theorem classification_keyword_precedence (w : JsValue) (s : String) :
    (jsTypeof w ≠ "string" → toStatusFromClassification w = none)
    ∧ (jsToLowerCase (jsTrim s) = "" → toStatusFromClassification (.str s) = none)
    ∧ (authKeyword (jsToLowerCase (jsTrim s)) = true →
        toStatusFromClassification (.str s) = some .authentic)
    ∧ (authKeyword (jsToLowerCase (jsTrim s)) = false →
        fakeKeyword (jsToLowerCase (jsTrim s)) = true →
        toStatusFromClassification (.str s) = some .fake)
    ∧ (authKeyword (jsToLowerCase (jsTrim s)) = false →
        fakeKeyword (jsToLowerCase (jsTrim s)) = false →
        toStatusFromClassification (.str s) = none) := by
  refine ⟨?_, ?_, ?_, ?_, ?_⟩
  · intro h
    cases w <;> first | rfl | exact absurd rfl h
  · intro h
    show statusOfNormalized (jsToLowerCase (jsTrim s)) = none
    rw [h]
    rfl
  · intro h
    exact statusOfNormalized_auth _ h
  · intro ha hf
    exact statusOfNormalized_fake _ ha hf
  · intro ha hf
    exact statusOfNormalized_none _ ha hf

/-- C9 witness: "REAL deepfake" contains both an authentic and a fake
keyword and maps to "authentic"; "so FaKe" maps to "fake"; a number maps
to `null`. -/
theorem classification_keyword_witness :
    authKeyword (jsToLowerCase (jsTrim " REAL deepfake ")) = true
    ∧ toStatusFromClassification (.str " REAL deepfake ") = some .authentic
    ∧ toStatusFromClassification (.str "so FaKe") = some .fake
    ∧ toStatusFromClassification (.num (.finite 3)) = none :=
  ⟨by decide,
   (classification_keyword_precedence JsValue.null " REAL deepfake ").2.2.1 (by decide),
   (classification_keyword_precedence JsValue.null "so FaKe").2.2.2.1 (by decide) (by decide),
   (classification_keyword_precedence (JsValue.num (.finite 3)) "").1 (by decide)⟩

/-! ## Media-capture resources -/

/-- A `MediaStreamTrack` with its stopped flag. -/
structure Track where
  tid : Nat
  stopped : Bool
deriving DecidableEq, Repr

/-- A `MediaStream`: its list of tracks. -/
structure MediaStream where
  tracks : List Track
deriving DecidableEq, Repr

/-- `stream.getTracks().forEach(track => track.stop())`. -/
def stopTracks (ms : MediaStream) : MediaStream :=
  { tracks := ms.tracks.map (fun t => { t with stopped := true }) }

/-- Every track of the stream is stopped. -/
def allStopped (ms : MediaStream) : Bool :=
  ms.tracks.all (fun t => t.stopped)

/-! ## The `Scanner` component (C2, C5, C6) -/

/-- `type ScanStatus = "idle" | "recording" | "recorded" | "scanning" | "complete"`. -/
inductive ScanStatus where
  | idle
  | recording
  | recorded
  | scanning
  | complete
deriving DecidableEq, Repr

/-- `type CaptureMode = "camera" | "audio"`. -/
inductive CaptureMode where
  | camera
  | audio
deriving DecidableEq, Repr

/-- The React state of the `Scanner` component, together with whether the
`MediaRecorder` held in `mediaRecorderRef` is currently active
(exists and is not "inactive"). -/
structure ScannerState where
  scanStatus : ScanStatus
  scanResult : Option SStatus
  stream : Option MediaStream
  hasPermissions : Bool
  captureMode : CaptureMode
  recordedVideo : Option String
  recordedBlob : Option Blob
  isProcessing : Bool
  recorderActive : Bool
deriving DecidableEq, Repr

/-- The initial `useState` values of `Scanner`. -/
def initScanner : ScannerState :=
  { scanStatus := .idle, scanResult := none, stream := none, hasPermissions := false,
    captureMode := .camera, recordedVideo := none, recordedBlob := none,
    isProcessing := false, recorderActive := false }

/-- `requestCameraPermissions` / `requestAudioPermissions` on success:
store the granted stream and set `hasPermissions`. -/
def grantPermissions (s : ScannerState) (ms : MediaStream) : ScannerState :=
  { s with stream := some ms, hasPermissions := true }

/-- `startRecording` after the recorder was created and started. -/
def beginRecording (s : ScannerState) : ScannerState :=
  { s with scanStatus := .recording, recorderActive := true }

/-- The recorder's `onstop` handler: assemble the blob, surface it, move
to "recorded". -/
def recorderStopHandler (s : ScannerState) (blob : Blob) (url : String) : ScannerState :=
  { s with recordedVideo := some url, recordedBlob := some blob,
           scanStatus := .recorded, isProcessing := false, recorderActive := false }

/-- The recorder's `onerror` handler: back to "idle". -/
def recorderErrorHandler (s : ScannerState) : ScannerState :=
  { s with scanStatus := .idle, isProcessing := false, recorderActive := false }

/-- `stopRecording`: only acts when a non-inactive recorder exists. -/
def stopRecordingHandler (s : ScannerState) : ScannerState :=
  if s.recorderActive then { s with isProcessing := true } else s

/-! Effects emitted by a handler: the HTTP requests it issues, how many
times it invokes the `onScanComplete` callback, and the toasts it shows. -/

structure Toast where
  title : String
  description : String
  variant : String
deriving DecidableEq, Repr

structure Effects where
  requests : List Request
  scanCompleteCalls : Nat
  toasts : List Toast
deriving DecidableEq, Repr

/-- An axios rejection as the client reads it: `error.response?.data?.message`
when present (the model assumes a string-typed message field), and
`error.message` when the error is an `Error`. -/
structure AxiosErr where
  apiMessage : Option String
  message : Option String
deriving DecidableEq, Repr

/-- JavaScript `a || b` for a possibly-absent string `a` (empty string is
falsy). -/
def orTruthy (a : Option String) (b : String) : String :=
  match a with
  | some s => if s = "" then b else s
  | none => b

/-- `error.response?.data?.message || error.message || "Could not analyze
content. Please try again."` (Scanner's catch). -/
def scannerScanErrMsg (e : AxiosErr) : String :=
  orTruthy e.apiMessage (orTruthy e.message "Could not analyze content. Please try again.")

/-- The analyze response payload as `Scanner` reads it: `result.status`
and `result.resultId`. -/
structure ScanResponse where
  status : Option SStatus
  resultId : Option String
deriving DecidableEq, Repr

/-- The first half of `scanRecordedContent`, up to issuing the request:
without a recorded blob it only toasts; otherwise it moves to "scanning",
clears the previous result, and posts the blob (video for camera mode,
audio for audio mode, each with the source's default filename). -/
def scanStartRun (env : Env) (s : ScannerState) : ScannerState × Effects :=
  match s.recordedBlob with
  | none =>
    (s, { requests := [], scanCompleteCalls := 0,
          toasts := [⟨"No recording to scan", "Please record content first", "destructive"⟩] })
  | some b =>
    ({ s with scanStatus := .scanning, scanResult := none },
     { requests := [match s.captureMode with
                    | .camera => videoDetection.postVideo env b videoDetection.defaultFilename
                    | .audio => audioDetection.postAudio env b audioDetection.defaultFilename]
       scanCompleteCalls := 0
       toasts := [] })

/-- The success continuation of `scanRecordedContent`: store the returned
status, move to "complete", invoke `onScanComplete` once, toast the verdict. -/
def scanSuccessRun (s : ScannerState) (r : ScanResponse) : ScannerState × Effects :=
  ({ s with scanStatus := .complete, scanResult := r.status },
   { requests := []
     scanCompleteCalls := 1
     toasts := [if r.status = some .authentic then
                  ⟨"Verified Authentic", "This content appears to be genuine", "default"⟩
                else
                  ⟨"Deepfake Detected", "Warning: This content may be manipulated", "destructive"⟩] })

/-- The catch branch of `scanRecordedContent`: toast the error and go back
to "recorded". -/
def scanFailureRun (s : ScannerState) (e : AxiosErr) : ScannerState × Effects :=
  ({ s with scanStatus := .recorded },
   { requests := []
     scanCompleteCalls := 0
     toasts := [⟨"Scan failed", scannerScanErrMsg e, "destructive"⟩] })

/-- `resetScan`: clear status/result/recording, and when a stream is held
stop every track and clear the stream and permission state.  Stopping all
tracks of the stream a recorder was bound to ends that recorder; the model
folds this into `recorderActive := false` and assumes the ended recorder
emits no further callbacks. -/
def resetScan (s : ScannerState) : ScannerState × Option MediaStream :=
  let base := { s with scanStatus := ScanStatus.idle, scanResult := none,
                       recordedVideo := none, recordedBlob := none }
  match s.stream with
  | some ms =>
    ({ base with stream := none, hasPermissions := false, recorderActive := false },
     some (stopTracks ms))
  | none => (base, none)

/-- The `useEffect` on `captureMode`: stop the held stream's tracks, clear
stream/permissions, and reset the recording state to "idle" under the new
mode (same recorder-ending convention as `resetScan`). -/
def modeSwitchEffect (s : ScannerState) (m : CaptureMode) : ScannerState × Option MediaStream :=
  let cleaned : ScannerState × Option MediaStream :=
    match s.stream with
    | some ms =>
      ({ s with stream := none, hasPermissions := false, recorderActive := false },
       some (stopTracks ms))
    | none => (s, none)
  ({ cleaned.1 with captureMode := m, recordedVideo := none, recordedBlob := none,
                    scanResult := none, scanStatus := ScanStatus.idle }, cleaned.2)

/-- The unmount cleanup effect: stop every track of the held stream (the
component state itself is discarded on unmount). -/
def unmountCleanup (s : ScannerState) : Option MediaStream :=
  s.stream.map stopTracks

/-- One UI event or browser callback of the `Scanner` component.  Click
handlers are guarded by the render conditions of the buttons that trigger
them; recorder callbacks are guarded by an active recorder; a scan
response is handled in the "scanning" state (single-flight assumption). -/
inductive ScannerStep : ScannerState → ScannerState → Prop where
  | permGrant (s : ScannerState) (ms : MediaStream) :
      s.scanStatus = .idle → s.hasPermissions = false →
      ScannerStep s (grantPermissions s ms)
  | permDeny (s : ScannerState) :
      s.scanStatus = .idle → s.hasPermissions = false →
      ScannerStep s s
  | startNoStream (s : ScannerState) :
      s.scanStatus = .idle → s.hasPermissions = true → s.stream = none →
      ScannerStep s s
  | startOk (s : ScannerState) (ms : MediaStream) :
      s.scanStatus = .idle → s.hasPermissions = true → s.stream = some ms →
      ScannerStep s (beginRecording s)
  | startThrow (s : ScannerState) (ms : MediaStream) :
      s.scanStatus = .idle → s.hasPermissions = true → s.stream = some ms →
      ScannerStep s s
  | stopClick (s : ScannerState) :
      s.scanStatus = .recording →
      ScannerStep s (stopRecordingHandler s)
  | recorderStopped (s : ScannerState) (blob : Blob) (url : String) :
      s.recorderActive = true →
      ScannerStep s (recorderStopHandler s blob url)
  | recorderFailed (s : ScannerState) :
      s.recorderActive = true →
      ScannerStep s (recorderErrorHandler s)
  | scanClick (env : Env) (s : ScannerState) :
      s.scanStatus = .recorded →
      ScannerStep s (scanStartRun env s).1
  | scanOk (s : ScannerState) (r : ScanResponse) :
      s.scanStatus = .scanning →
      ScannerStep s (scanSuccessRun s r).1
  | scanFail (s : ScannerState) (e : AxiosErr) :
      s.scanStatus = .scanning →
      ScannerStep s (scanFailureRun s e).1
  | resetClick (s : ScannerState) :
      s.scanStatus = .recorded ∨ s.scanStatus = .complete →
      ScannerStep s (resetScan s).1
  | switchMode (s : ScannerState) (m : CaptureMode) :
      m ≠ s.captureMode →
      ScannerStep s (modeSwitchEffect s m).1

/-- States reachable from the component's initial state. -/
inductive ScannerReach : ScannerState → Prop where
  | init : ScannerReach initScanner
  | step {s s' : ScannerState} : ScannerReach s → ScannerStep s s' → ScannerReach s'

/-- An active recorder exists only while recording, and only with a held
stream. -/
def RecorderInv (s : ScannerState) : Prop :=
  s.recorderActive = true → s.scanStatus = .recording ∧ s.stream ≠ none

lemma reach_recorder_inv {s : ScannerState} (h : ScannerReach s) : RecorderInv s := by
  induction h with
  | init => intro ha; exact absurd ha (by decide)
  | @step s s' _ hs ih =>
    cases hs with
    | permGrant s ms h1 h2 =>
      intro ha
      have hst := (ih ha).1
      rw [h1] at hst
      exact absurd hst (by decide)
    | permDeny s h1 h2 => exact ih
    | startNoStream s h1 h2 h3 => exact ih
    | startOk s ms h1 h2 h3 =>
      intro _
      exact ⟨rfl, by simp [beginRecording, h3]⟩
    | startThrow s ms h1 h2 h3 => exact ih
    | stopClick s h1 =>
      intro ha
      have hact : s.recorderActive = true := by
        by_cases hb : s.recorderActive = true
        · exact hb
        · simp [stopRecordingHandler, hb] at ha
      obtain ⟨hst, hstr⟩ := ih hact
      constructor
      · simp [stopRecordingHandler, hact, h1]
      · simpa [stopRecordingHandler, hact] using hstr
    | recorderStopped s blob url hact =>
      intro ha
      simp [recorderStopHandler] at ha
    | recorderFailed s hact =>
      intro ha
      simp [recorderErrorHandler] at ha
    | scanClick env s h1 =>
      intro ha
      have hact : s.recorderActive = true := by
        cases hb : s.recordedBlob <;> simpa [scanStartRun, hb] using ha
      have hst := (ih hact).1
      rw [h1] at hst
      exact absurd hst (by decide)
    | scanOk s r h1 =>
      intro ha
      have hact : s.recorderActive = true := by simpa [scanSuccessRun] using ha
      have hst := (ih hact).1
      rw [h1] at hst
      exact absurd hst (by decide)
    | scanFail s e h1 =>
      intro ha
      have hact : s.recorderActive = true := by simpa [scanFailureRun] using ha
      have hst := (ih hact).1
      rw [h1] at hst
      exact absurd hst (by decide)
    | resetClick s h1 =>
      intro ha
      cases hstr : s.stream with
      | some ms => simp [resetScan, hstr] at ha
      | none =>
        have hact : s.recorderActive = true := by simpa [resetScan, hstr] using ha
        have hst := (ih hact).1
        rcases h1 with h1 | h1 <;> rw [h1] at hst <;> exact absurd hst (by decide)
    | switchMode s m hm =>
      intro ha
      cases hstr : s.stream with
      | some ms => simp [modeSwitchEffect, hstr] at ha
      | none =>
        have hact : s.recorderActive = true := by simpa [modeSwitchEffect, hstr] using ha
        have hstream := (ih hact).2
        exact absurd hstr hstream

/-- The linear lifecycle of claim C2: the four forward edges plus reset
back to "idle". -/
def lifecycleStep : ScanStatus → ScanStatus → Bool
  | .idle, .recording => true
  | .recording, .recorded => true
  | .recorded, .scanning => true
  | .scanning, .complete => true
  | _, .idle => true
  | _, _ => false

/-- The lifecycle extended with the error fallback the code performs:
"scanning" falls back to "recorded" when the backend call fails. -/
def lifecycleStepOrScanError : ScanStatus → ScanStatus → Bool
  | .scanning, .recorded => true
  | a, b => lifecycleStep a b

/-- C2 (amended): along reachable states, every change of `scanStatus` is
a step of the lifecycle idle → recording → recorded → scanning → complete,
a return to idle, or the error fallback scanning → recorded taken when the
backend call fails. -/
theorem scanner_lifecycle_with_error_fallback (s s' : ScannerState)
    (hr : ScannerReach s) (hs : ScannerStep s s')
    (hne : s.scanStatus ≠ s'.scanStatus) :
    lifecycleStepOrScanError s.scanStatus s'.scanStatus = true := by
  have hinv := reach_recorder_inv hr
  cases hs with
  | permGrant s ms h1 h2 => exact absurd rfl hne
  | permDeny s h1 h2 => exact absurd rfl hne
  | startNoStream s h1 h2 h3 => exact absurd rfl hne
  | startOk s ms h1 h2 h3 =>
    have h4 : (beginRecording s).scanStatus = ScanStatus.recording := rfl
    rw [h1, h4]
    rfl
  | startThrow s ms h1 h2 h3 => exact absurd rfl hne
  | stopClick s h1 =>
    refine absurd ?_ hne
    unfold stopRecordingHandler
    split <;> rfl
  | recorderStopped s blob url hact =>
    have h4 : (recorderStopHandler s blob url).scanStatus = ScanStatus.recorded := rfl
    rw [h4, (hinv hact).1]
    rfl
  | recorderFailed s hact =>
    have h4 : (recorderErrorHandler s).scanStatus = ScanStatus.idle := rfl
    rw [h4, (hinv hact).1]
    rfl
  | scanClick env s h1 =>
    cases hb : s.recordedBlob with
    | none => exact absurd (by simp [scanStartRun, hb]) hne
    | some b =>
      have h4 : (scanStartRun env s).1.scanStatus = ScanStatus.scanning := by
        simp [scanStartRun, hb]
      rw [h4, h1]
      rfl
  | scanOk s r h1 =>
    have h4 : (scanSuccessRun s r).1.scanStatus = ScanStatus.complete := rfl
    rw [h4, h1]
    rfl
  | scanFail s e h1 =>
    have h4 : (scanFailureRun s e).1.scanStatus = ScanStatus.recorded := rfl
    rw [h4, h1]
    rfl
  | resetClick s h1 =>
    have h4 : (resetScan s).1.scanStatus = ScanStatus.idle := by
      cases hstr : s.stream <;> simp [resetScan, hstr]
    rw [h4]
    rcases h1 with h1 | h1 <;> rw [h1] <;> rfl
  | switchMode s m hm =>
    have h4 : (modeSwitchEffect s m).1.scanStatus = ScanStatus.idle := by
      cases hstr : s.stream <;> simp [modeSwitchEffect, hstr]
    rw [h4]
    cases hsts : s.scanStatus <;> rfl

/-! A concrete execution of the Scanner, used below: grant permissions,
record, stop, scan, and have the backend call fail. -/

def msDemo : MediaStream := { tracks := [{ tid := 0, stopped := false }] }

def blobDemo : Blob := { val := 0 }

def envDemo : Env := fun _ => none

def errDemo : AxiosErr := { apiMessage := none, message := some "Network Error" }

def sIdlePerm : ScannerState := grantPermissions initScanner msDemo

def sRecording : ScannerState := beginRecording sIdlePerm

def sRecorded : ScannerState := recorderStopHandler sRecording blobDemo "blob:demo"

def sScanning : ScannerState := (scanStartRun envDemo sRecorded).1

lemma sRecorded_reach : ScannerReach sRecorded :=
  .step
    (.step
      (.step .init (ScannerStep.permGrant initScanner msDemo rfl rfl))
      (ScannerStep.startOk sIdlePerm msDemo rfl rfl rfl))
    (ScannerStep.recorderStopped sRecording blobDemo "blob:demo" rfl)

lemma sScanning_reach : ScannerReach sScanning :=
  .step sRecorded_reach (ScannerStep.scanClick envDemo sRecorded rfl)

/-- C2 counterexample: the lifecycle as literally claimed (forward steps
plus reset-to-idle only) is violated — from a reachable "scanning" state a
failed backend call moves the status back to "recorded", which is neither
a forward step nor a reset to idle. -/
theorem scanner_lifecycle_strict_fails :
    ¬ (∀ s s' : ScannerState, ScannerReach s → ScannerStep s s' →
        s.scanStatus ≠ s'.scanStatus → lifecycleStep s.scanStatus s'.scanStatus = true) := by
  intro hclaim
  have hstep : ScannerStep sScanning (scanFailureRun sScanning errDemo).1 :=
    ScannerStep.scanFail sScanning errDemo rfl
  have hcontra := hclaim sScanning (scanFailureRun sScanning errDemo).1
    sScanning_reach hstep (by decide)
  exact absurd hcontra (by decide)

/-- C2 witness: the amended lifecycle theorem applied to the concrete
recorded-state scan click, yielding the recorded → scanning edge. -/
theorem scanner_lifecycle_witness :
    lifecycleStepOrScanError ScanStatus.recorded ScanStatus.scanning = true :=
  scanner_lifecycle_with_error_fallback sRecorded sScanning sRecorded_reach
    (ScannerStep.scanClick envDemo sRecorded rfl) (by decide)

/-- C6: whenever the Scanner is reset, the capture mode is switched, or
the component unmounts, every track of the currently held `MediaStream` is
stopped, and (for reset and mode switch, where component state persists)
the stream and permission state are cleared. -/
theorem media_resources_released (s : ScannerState) (ms : MediaStream) (m : CaptureMode)
    (h : s.stream = some ms) :
    ((resetScan s).1.stream = none
      ∧ (resetScan s).1.hasPermissions = false
      ∧ (resetScan s).2 = some (stopTracks ms)
      ∧ allStopped (stopTracks ms) = true)
    ∧ ((modeSwitchEffect s m).1.stream = none
      ∧ (modeSwitchEffect s m).1.hasPermissions = false
      ∧ (modeSwitchEffect s m).2 = some (stopTracks ms))
    ∧ unmountCleanup s = some (stopTracks ms) := by
  refine ⟨⟨?_, ?_, ?_, ?_⟩, ⟨?_, ?_, ?_⟩, ?_⟩ <;>
    simp [resetScan, modeSwitchEffect, unmountCleanup, h, allStopped, stopTracks]

/-- C6 witness: the release theorem applied to the concrete state holding
`msDemo`. -/
theorem media_resources_released_witness :
    (resetScan sIdlePerm).1.stream = none
    ∧ (resetScan sIdlePerm).1.hasPermissions = false
    ∧ allStopped (stopTracks msDemo) = true :=
  ⟨(media_resources_released sIdlePerm msDemo .audio rfl).1.1,
   (media_resources_released sIdlePerm msDemo .audio rfl).1.2.1,
   (media_resources_released sIdlePerm msDemo .audio rfl).1.2.2.2⟩

/-! ## The `Upload` component's `scanBlob` (C5) -/

/-- The selection state of the `Upload` component. -/
structure UploadState where
  isScanning : Bool
  selectedVideoFile : Option Blob
  selectedAudioFile : Option Blob
  selectedImageFile : Option Blob
deriving DecidableEq, Repr

inductive MediaKind where
  | audio
  | video
  | image
deriving DecidableEq, Repr

/-- Clearing all three selections after a completed scan. -/
def clearSelections (u : UploadState) : UploadState :=
  { u with selectedVideoFile := none, selectedAudioFile := none, selectedImageFile := none }

/-- `toNumericId` of `Upload.tsx` / `ScreenRecorder.tsx`. -/
def toNumericId (value : JsValue) : Option Int :=
  match value with
  | .num (.finite v) => some v
  | .str s =>
    (match jsParseInt s with
     | .finite v => some v
     | _ => none)
  | _ => none

/-- JavaScript full-string `Number(s)` on the integer-valued number model:
empty trimmed string is `0`; otherwise the whole string must be an
optionally signed digit run (fractional or exponent forms are `NaN` in
this model). -/
def jsNumberOfString (s : String) : JsNum :=
  let cs := (jsTrim s).data
  if cs.isEmpty then .finite 0
  else
    let signed : Bool × List Char :=
      match cs with
      | '-' :: rest => (true, rest)
      | '+' :: rest => (false, rest)
      | rest => (false, rest)
    if signed.2.isEmpty || signed.2.any (fun c => !c.isDigit) then .nan
    else
      let v : Int := Int.ofNat (signed.2.foldl (fun a c => a * 10 + (c.toNat - 48)) 0)
      .finite (if signed.1 then -v else v)

/-- Drop the first occurrence of a character (`s.replace("%", "")` on the
single-occurrence use the client makes). -/
def removeFirst (c : Char) : List Char → List Char
  | [] => []
  | x :: xs => if x = c then xs else x :: removeFirst c xs

/-- `formatMaybePercent` of `Upload.tsx` / `ScreenRecorder.tsx`.
`toFixed(2)` on the integer-valued number model appends ".00". -/
def formatMaybePercent (value : JsValue) : Option String :=
  match value with
  | .null => none
  | .jsundefined => none
  | .num (.finite v) => some (toString v ++ ".00%")
  | .str s =>
    let trimmed := jsTrim s
    if trimmed = "" then none
    else
      (match jsNumberOfString (String.mk (removeFirst '%' trimmed.data)) with
       | .finite n => some (toString n ++ ".00%")
       | _ => some trimmed)
  | _ => none

/-- The request `scanBlob` issues for each media kind (the blob is passed
without an explicit filename, so the source defaults apply). -/
def uploadRequest (env : Env) (b : Blob) (kind : MediaKind) : Request :=
  match kind with
  | .audio => audioDetection.postAudio env b audioDetection.defaultFilename
  | .video => videoDetection.postVideo env b videoDetection.defaultFilename
  | .image => imageDetection.postImage env b imageDetection.defaultFilename

/-- `result?.status ?? toStatusFromClassification(result?.classification)`
(the TypeScript helper returns the strings "authentic"/"fake" or `null`). -/
def uploadStatusVal (data : JsValue) : JsValue :=
  coalesce (getField data "status")
    (match toStatusFromClassification (getField data "classification") with
     | some .authentic => .str "authentic"
     | some .fake => .str "fake"
     | none => .null)

/-- `v === t` for a string literal `t`. -/
def jsEqStr (v : JsValue) (t : String) : Bool :=
  match v with
  | .str s => s = t
  | _ => false

/-- The Upload catch's message:
`(typeof apiMessage === "string" && apiMessage.trim() ? apiMessage : undefined)
 || (error instanceof Error ? error.message : undefined)
 || "Could not analyze content. Please try again."`. -/
def uploadScanErrMsg (e : AxiosErr) : String :=
  match e.apiMessage with
  | some m =>
    if jsTrim m = "" then orTruthy e.message "Could not analyze content. Please try again."
    else m
  | none => orTruthy e.message "Could not analyze content. Please try again."

/-- The backend outcome of one `scanBlob` call. -/
inductive UploadOutcome where
  | success (data : JsValue)
  | failure (e : AxiosErr)

/-- `Upload.scanBlob(fileBlob, kind, opts)` run to completion on a given
backend outcome. -/
def scanBlobRun (env : Env) (u : UploadState) (fileBlob : Blob) (kind : MediaKind)
    (clearSelection : Bool) (o : UploadOutcome) : UploadState × Effects :=
  let u1 := { u with isScanning := true }
  let req := uploadRequest env fileBlob kind
  match o with
  | .failure e =>
    ({ u1 with isScanning := false },
     { requests := [req], scanCompleteCalls := 0,
       toasts := [⟨"Scan failed", uploadScanErrMsg e, "destructive"⟩] })
  | .success data =>
    let status := uploadStatusVal data
    let logId := toNumericId (coalesce (getField data "resultId") (getField data "id"))
    let verdictText :=
      if jsEqStr status "fake" then "This is potentially a Deepfake."
      else if jsEqStr status "authentic" then "This looks good (Bonafide)."
      else "Result received."
    let clsVal := getField data "classification"
    let hasCls := (jsTypeof clsVal == "string") && !(jsTrim (asStr clsVal) = "")
    let parts : List String :=
      (match formatMaybePercent (getField data "score") with
       | some st => ["Score: " ++ st]
       | none => [])
      ++ (if hasCls then ["Classification: " ++ asStr clsVal] else [])
      ++ (match logId with
          | some i => ["Log #" ++ toString i]
          | none => [])
    let u2 := if clearSelection then clearSelections u1 else u1
    ({ u2 with isScanning := false },
     { requests := [req]
       scanCompleteCalls := 1
       toasts := [⟨(if hasCls then asStr clsVal
                    else if jsEqStr status "authentic" then "Bonafide" else "Deepfake"),
                   (if parts.length > 0 then
                      verdictText ++ " " ++ String.intercalate " • " parts
                    else verdictText),
                   (if jsEqStr status "fake" then "destructive" else "success")⟩] })

/-- C5: when an analyze request fails, the error is surfaced solely as a
toast and the request is not retried — exactly one HTTP request per scan
attempt, `onScanComplete` is never invoked, the Scanner's status returns
to "recorded" with `scanResult` still `null`, and the Upload component
merely clears `isScanning`, leaving the selections unchanged. -/
theorem scan_failure_is_toast_only (env : Env) (s : ScannerState) (b : Blob)
    (e e2 : AxiosErr) (u : UploadState) (f : Blob) (k : MediaKind) (cs : Bool)
    (hb : s.recordedBlob = some b) :
    ((scanStartRun env s).2.requests.length = 1
      ∧ (scanStartRun env s).2.scanCompleteCalls = 0
      ∧ (scanStartRun env s).2.toasts = []
      ∧ (scanFailureRun (scanStartRun env s).1 e).2.requests = []
      ∧ (scanFailureRun (scanStartRun env s).1 e).2.scanCompleteCalls = 0
      ∧ (scanFailureRun (scanStartRun env s).1 e).1.scanStatus = .recorded
      ∧ (scanFailureRun (scanStartRun env s).1 e).1.scanResult = none
      ∧ (scanFailureRun (scanStartRun env s).1 e).2.toasts
          = [⟨"Scan failed", scannerScanErrMsg e, "destructive"⟩])
    ∧ ((scanBlobRun env u f k cs (.failure e2)).2.requests.length = 1
      ∧ (scanBlobRun env u f k cs (.failure e2)).2.scanCompleteCalls = 0
      ∧ (scanBlobRun env u f k cs (.failure e2)).2.toasts
          = [⟨"Scan failed", uploadScanErrMsg e2, "destructive"⟩]
      ∧ (scanBlobRun env u f k cs (.failure e2)).1.isScanning = false
      ∧ (scanBlobRun env u f k cs (.failure e2)).1.selectedVideoFile = u.selectedVideoFile
      ∧ (scanBlobRun env u f k cs (.failure e2)).1.selectedAudioFile = u.selectedAudioFile
      ∧ (scanBlobRun env u f k cs (.failure e2)).1.selectedImageFile = u.selectedImageFile) := by
  refine ⟨⟨?_, ?_, ?_, ?_, ?_, ?_, ?_, ?_⟩, ⟨?_, ?_, ?_, ?_, ?_, ?_, ?_⟩⟩ <;>
    simp [scanStartRun, scanFailureRun, scanBlobRun, hb]

/-- C5 witness: the failure theorem applied to the concrete recorded state
and a concrete Upload state. -/
theorem scan_failure_witness :
    (scanFailureRun (scanStartRun envDemo sRecorded).1 errDemo).1.scanStatus = .recorded
    ∧ (scanFailureRun (scanStartRun envDemo sRecorded).1 errDemo).1.scanResult = none
    ∧ (scanStartRun envDemo sRecorded).2.requests.length = 1
    ∧ (scanBlobRun envDemo ⟨false, some blobDemo, none, none⟩ blobDemo .video true
        (.failure errDemo)).2.scanCompleteCalls = 0 :=
  ⟨(scan_failure_is_toast_only envDemo sRecorded blobDemo errDemo errDemo
      ⟨false, some blobDemo, none, none⟩ blobDemo .video true rfl).1.2.2.2.2.2.1,
   (scan_failure_is_toast_only envDemo sRecorded blobDemo errDemo errDemo
      ⟨false, some blobDemo, none, none⟩ blobDemo .video true rfl).1.2.2.2.2.2.2.1,
   (scan_failure_is_toast_only envDemo sRecorded blobDemo errDemo errDemo
      ⟨false, some blobDemo, none, none⟩ blobDemo .video true rfl).1.1,
   (scan_failure_is_toast_only envDemo sRecorded blobDemo errDemo errDemo
      ⟨false, some blobDemo, none, none⟩ blobDemo .video true rfl).2.2.1⟩

/-! ## `MainApp.handleDeleteItem` (C10) -/

/-- The MainApp delete error description:
`getErrorMessage(error) || (error instanceof Error ? error.message : "Could not delete the log")`. -/
def deleteErrMsg (e : AxiosErr) : String :=
  orTruthy e.apiMessage
    (match e.message with
     | some m => m
     | none => "Could not delete the log")

/-- The observable result of one `handleDeleteItem` run. -/
structure DeleteRun where
  items : List HistoryItem
  requests : List Request
  toasts : List Toast
deriving DecidableEq, Repr

/-- `handleDeleteItem(id)` run to completion: parse the id, issue the
DELETE, and on success filter the local list by stringified id; on failure
leave the list untouched and toast the error. -/
def handleDeleteItem (env : Env) (items : List HistoryItem) (id : String)
    (outcome : Option AxiosErr) : DeleteRun :=
  let req := logApi.deleteLogById env (jsParseInt id)
  match outcome with
  | none =>
    { items := items.filter (fun item => toString item.id != id)
      requests := [req]
      toasts := [⟨"Log deleted", "The scan log has been removed", "default"⟩] }
  | some e =>
    { items := items
      requests := [req]
      toasts := [⟨"Delete failed", deleteErrMsg e, "destructive"⟩] }

/-- C10: deleting a history entry is atomic with respect to the local
list — on success exactly the entries whose id stringifies to the given id
are removed (every other entry is kept, in order); on failure the list is
completely unchanged and only an error toast is shown. -/
theorem delete_is_atomic (env : Env) (items : List HistoryItem) (id : String)
    (e : AxiosErr) (item : HistoryItem) :
    ((item ∈ (handleDeleteItem env items id none).items
        ↔ item ∈ items ∧ toString item.id ≠ id)
      ∧ (handleDeleteItem env items id none).items.Sublist items
      ∧ (handleDeleteItem env items id none).requests.length = 1)
    ∧ ((handleDeleteItem env items id (some e)).items = items
      ∧ (handleDeleteItem env items id (some e)).toasts
          = [⟨"Delete failed", deleteErrMsg e, "destructive"⟩]
      ∧ (handleDeleteItem env items id (some e)).requests.length = 1) := by
  refine ⟨⟨?_, ?_, ?_⟩, ⟨?_, ?_, ?_⟩⟩
  · simp [handleDeleteItem, List.mem_filter]
  · exact List.filter_sublist items
  · rfl
  · rfl
  · rfl
  · rfl

/-- A concrete two-entry history list. -/
def demoHistory : List HistoryItem :=
  [{ id := 5, is_deepfake := false, date := "2024-01-02", hour := "10:30" },
   { id := 7, is_deepfake := true, date := "2024-01-03", hour := "11:00" }]

/-- C10 witness: deleting id "7" keeps the entry with id 5, and a failed
delete leaves the list unchanged. -/
theorem delete_is_atomic_witness :
    ({ id := 5, is_deepfake := false, date := "2024-01-02", hour := "10:30" } : HistoryItem)
        ∈ (handleDeleteItem envDemo demoHistory "7" none).items
    ∧ (handleDeleteItem envDemo demoHistory "7" (some errDemo)).items = demoHistory :=
  ⟨((delete_is_atomic envDemo demoHistory "7" errDemo
      { id := 5, is_deepfake := false, date := "2024-01-02", hour := "10:30" }).1.1).mpr
      ⟨by decide, by decide⟩,
   (delete_is_atomic envDemo demoHistory "7" errDemo
      { id := 5, is_deepfake := false, date := "2024-01-02", hour := "10:30" }).2.1⟩
